import Mathlib

/-!
Verification of the gomoku engine in `src/features/gomoku.py`
(repository mikan599/discord-arcade-hub).

The board `self.board` is a `size × size` grid of cells, accessed as
`board[y][x]`; we embed it as a function `Board := Int → Int → Nat`
applied as `b x y`.  All grid reads in the source are guarded by
`_inside`, so values of the function outside the board are never
consulted.  Cell values follow the source: `EMPTY = 0`, `X = 1`
(Black, the restricted side), `O = 2` (White).

Python `while` walks along a line are embedded with fuel `n` (the board
size): each step moves one of the coordinates by exactly `1` and the
`_inside` guard confines the walk to `[0, n)`, so at most `n` steps can
succeed and fuel `n` is exact.

Methods that speculatively mutate `self.board` and restore it
(`is_legal_move`, `_winning_cells_in_dir_for_x`, `_is_forbidden_44`,
`_place_with_rules`/`place`) are embedded with explicit state passing
(suffix `St` for the board-threading helpers); the remaining methods
only read the board and are embedded as pure functions.
-/

namespace Gomoku

/-- Cell value for an empty cell (source constant `EMPTY = 0`). -/
def EMPTY : Nat := 0

/-- Cell value for Black, the restricted side (source constant `X = 1`). -/
def X : Nat := 1

/-- Cell value for White, the unrestricted side (source constant `O = 2`). -/
def O : Nat := 2

/-- The board grid: `b x y` is the cell at column `x`, row `y`
(Python `self.board[y][x]`). -/
def Board : Type := Int → Int → Nat

/-- Source `_inside(n, x, y)`: `0 <= x < n and 0 <= y < n`. -/
def inside (n : Nat) (x y : Int) : Bool :=
  decide (0 ≤ x ∧ x < (n : Int) ∧ 0 ≤ y ∧ y < (n : Int))

/-- Write a single cell (Python `self.board[y][x] = v`). -/
def setC (b : Board) (x y : Int) (v : Nat) : Board :=
  fun x' y' => if x' = x ∧ y' = y then v else b x' y'

/-- The four scan directions used throughout the source:
`[(1, 0), (0, 1), (1, 1), (1, -1)]`. -/
def dirs : List (Int × Int) := [(1, 0), (0, 1), (1, 1), (1, -1)]

/-- Fuelled embedding of the `while` loop of `_count_one_dir`:
count contiguous stones of colour `who` from `(cx, cy)` onwards in
direction `(dx, dy)`. -/
def count_one_dir_aux (n : Nat) (b : Board) (who : Nat) (dx dy : Int) :
    Nat → Int → Int → Nat
  | 0, _, _ => 0
  | fuel + 1, cx, cy =>
    if inside n cx cy && (b cx cy == who) then
      1 + count_one_dir_aux n b who dx dy fuel (cx + dx) (cy + dy)
    else 0

/-- Source `_count_one_dir(x, y, dx, dy, who)`. -/
def count_one_dir (n : Nat) (b : Board) (x y dx dy : Int) (who : Nat) : Nat :=
  count_one_dir_aux n b who dx dy n (x + dx) (y + dy)

/-- Source `_max_run_in_dir(x, y, dx, dy, who)`:
`1 + count(dx, dy) + count(-dx, -dy)`. -/
def max_run_in_dir (n : Nat) (b : Board) (x y dx dy : Int) (who : Nat) : Nat :=
  1 + count_one_dir n b x y dx dy who + count_one_dir n b x y (-dx) (-dy) who

/-- Source `_is_five_or_more_from(x, y, who)`. -/
def is_five_or_more_from (n : Nat) (b : Board) (x y : Int) (who : Nat) : Bool :=
  dirs.any fun d => decide (5 ≤ max_run_in_dir n b x y d.1 d.2 who)

/-- Source `_is_exact_five_from(x, y, who)`. -/
def is_exact_five_from (n : Nat) (b : Board) (x y : Int) (who : Nat) : Bool :=
  dirs.any fun d => max_run_in_dir n b x y d.1 d.2 who == 5

/-- Source `_creates_overline(x, y, who)`. -/
def creates_overline (n : Nat) (b : Board) (x y : Int) (who : Nat) : Bool :=
  dirs.any fun d => decide (6 ≤ max_run_in_dir n b x y d.1 d.2 who)

/-- Character codes for the scan line of `_line_string`:
`0` = `'.'` (empty), `1` = `'X'`, `2` = `'O'`, `3` = `'#'` (off board). -/
def line_string (n : Nat) (b : Board) (x y dx dy : Int) : List Nat :=
  (List.range 13).map fun (i : Nat) =>
    let k : Int := (i : Int) - 6
    let cx := x + dx * k
    let cy := y + dy * k
    if inside n cx cy then
      (if b cx cy == EMPTY then 0 else if b cx cy == X then 1 else 2)
    else 3

/-- The three open-three patterns of
`_has_open_three_in_dir_involving_center`:
`".XXX."`, `".XX.X."`, `".X.XX."` in the codes of `line_string`. -/
def open_three_patterns : List (List Nat) :=
  [[0, 1, 1, 1, 0], [0, 1, 1, 0, 1, 0], [0, 1, 0, 1, 1, 0]]

/-- Source `_has_open_three_in_dir_involving_center(x, y, dx, dy)`:
some pattern occurs at an index `idx` of the scan line with the centre
(index 6) inside the matched window and no `'#'` in the window.  The
`find`/`start = idx + 1` loop of the source enumerates every occurrence
of the pattern, which the bounded existential below reproduces. -/
def has_open_three_in_dir_involving_center (n : Nat) (b : Board)
    (x y dx dy : Int) : Bool :=
  let line := line_string n b x y dx dy
  open_three_patterns.any fun p =>
    (List.range 13).any fun idx =>
      ((line.drop idx).take p.length == p) && decide (idx ≤ 6)
        && decide (6 < idx + p.length)
        && !((line.drop idx).take p.length).contains 3

/-- The candidate cells of `_winning_cells_in_dir_for_x`: empty cells on
the scan line within offset `-5 ≤ k ≤ 5` of `(x, y)`. -/
def wc_candidates (n : Nat) (b : Board) (x y dx dy : Int) : List (Int × Int) :=
  (List.range 11).filterMap fun (i : Nat) =>
    let k : Int := (i : Int) - 5
    let cx := x + dx * k
    let cy := y + dy * k
    if inside n cx cy && (b cx cy == EMPTY) then some (cx, cy) else none

/-- The test applied to each candidate of `_winning_cells_in_dir_for_x`:
place an X there, then exact five and no overline from that cell. -/
def wc_win (n : Nat) (b : Board) (c : Int × Int) : Bool :=
  let b1 := setC b c.1 c.2 X
  is_exact_five_from n b1 c.1 c.2 X && !creates_overline n b1 c.1 c.2 X

/-- One iteration of the trial loop of `_winning_cells_in_dir_for_x`,
with the board threaded: place X, test, restore the cell to `EMPTY`. -/
def wc_step (n : Nat) (acc : Nat × Board) (c : Int × Int) : Nat × Board :=
  let b1 := setC acc.2 c.1 c.2 X
  let isw := is_exact_five_from n b1 c.1 c.2 X && !creates_overline n b1 c.1 c.2 X
  (if isw then acc.1 + 1 else acc.1, setC b1 c.1 c.2 EMPTY)

/-- Source `_winning_cells_in_dir_for_x(x, y, dx, dy)` with the board
threaded through the speculative single-cell trials. -/
def winning_cells_in_dir_for_xSt (n : Nat) (b : Board) (x y dx dy : Int) :
    Nat × Board :=
  (wc_candidates n b x y dx dy).foldl (wc_step n) (0, b)

/-- Pure value of `_winning_cells_in_dir_for_x` (the trials restore the
board, see `winning_cells_in_dir_for_xSt_eq`). -/
def winning_cells_in_dir_for_x (n : Nat) (b : Board) (x y dx dy : Int) : Nat :=
  (wc_candidates n b x y dx dy).countP (wc_win n b)

/-- Source `_is_forbidden_44(x, y)` with the board threaded through the
four directional `_winning_cells_in_dir_for_x` calls. -/
def is_forbidden_44St (n : Nat) (b : Board) (x y : Int) : Bool × Board :=
  let r := dirs.foldl
    (fun (acc : Nat × Board) d =>
      let w := winning_cells_in_dir_for_xSt n acc.2 x y d.1 d.2
      (if 1 ≤ w.1 then acc.1 + 1 else acc.1, w.2))
    (0, b)
  (decide (2 ≤ r.1), r.2)

/-- Pure value of `_is_forbidden_44(x, y)`. -/
def is_forbidden_44 (n : Nat) (b : Board) (x y : Int) : Bool :=
  decide (2 ≤ dirs.foldl
    (fun k d => if 1 ≤ winning_cells_in_dir_for_x n b x y d.1 d.2 then k + 1 else k)
    0)

/-- Source `_is_forbidden_33(x, y)` (its directional test only reads the
board, so this method is pure). -/
def is_forbidden_33 (n : Nat) (b : Board) (x y : Int) : Bool :=
  decide (2 ≤ dirs.foldl
    (fun k d => if has_open_three_in_dir_involving_center n b x y d.1 d.2 then k + 1 else k)
    0)

/-- Pure value of `is_legal_move(x, y, who)` (see `is_legal_move` below
for the state-passing embedding and `is_legal_move_spec` for their
agreement). -/
def is_legal_moveB (n : Nat) (b : Board) (x y : Int) (who : Nat) : Bool :=
  if !inside n x y then false
  else if !(b x y == EMPTY) then false
  else
    let b1 := setC b x y who
    if who == X then
      !creates_overline n b1 x y X && !is_forbidden_44 n b1 x y
        && !is_forbidden_33 n b1 x y
    else true

/-- Source dataclass `GomokuGame` (the `board` created in
`__post_init__` included). -/
structure GomokuGame where
  size : Nat
  mode : String
  player_x : Option Nat
  player_o : Option Nat
  ai_level : Option String
  turn : Nat
  finished : Bool
  winner : Option Nat
  last_move : Option (Int × Int)
  board : Board

/-- Source `current_player_id()`. -/
def current_player_id (g : GomokuGame) : Option Nat :=
  if g.turn == X then g.player_x else g.player_o

/-- Source `can_play(user_id)`. -/
def can_play (g : GomokuGame) (user_id : Nat) : Bool :=
  if g.finished then false
  else
    match current_player_id g with
    | none => false
    | some pid => pid == user_id

/-- Source `is_ai_turn()`. -/
def is_ai_turn (g : GomokuGame) : Bool :=
  if g.finished then false else (current_player_id g).isNone

/-- Source `_is_draw()`. -/
def is_draw (n : Nat) (b : Board) : Bool :=
  (List.range n).all fun (yy : Nat) => (List.range n).all fun (xx : Nat) =>
    !(b (xx : Int) (yy : Int) == EMPTY)

/-- Source `is_legal_move(x, y, who)` with the board threaded through
the speculative placement and the `_is_forbidden_44` trials. -/
def is_legal_move (g : GomokuGame) (x y : Int) (who : Nat) : Bool × GomokuGame :=
  if !inside g.size x y then (false, g)
  else if !(g.board x y == EMPTY) then (false, g)
  else
    let b1 := setC g.board x y who
    if who == X then
      if creates_overline g.size b1 x y X then
        (false, { g with board := setC b1 x y EMPTY })
      else
        let p44 := is_forbidden_44St g.size b1 x y
        if p44.1 then (false, { g with board := setC p44.2 x y EMPTY })
        else (!is_forbidden_33 g.size p44.2 x y,
              { g with board := setC p44.2 x y EMPTY })
    else (true, { g with board := setC b1 x y EMPTY })

/-- Message of `place` on a finished game. -/
def msg_finished : String := "この対局は既に終了しています。"

/-- Message of `place` when it is not the caller's turn. -/
def msg_not_your_turn : String := "あなたの手番ではありません。"

/-- Message of `place` for an out-of-range coordinate. -/
def msg_range (n : Nat) : String :=
  "範囲外です。1〜" ++ toString n ++ "で指定してください。"

/-- Message of `place` for an occupied cell. -/
def msg_occupied : String := "そこには既に石があります。"

/-- Message of `_place_with_rules` when the game is decided. -/
def msg_decided : String := "勝敗が決まりました。"

/-- Message of `_place_with_rules` for an overline. -/
def msg_overline : String := "禁じ手: 長連（6以上）が発生します。"

/-- Message of `_place_with_rules` for a double four. -/
def msg_44 : String := "禁じ手: 四四（同時に2つ以上の四の筋）が発生します。"

/-- Message of `_place_with_rules` for a double three. -/
def msg_33 : String := "禁じ手: 三三（同時に2つ以上の両開き三）が発生します。"

/-- Success message of `_place_with_rules`. -/
def msg_ok : String := "OK"

/-- Source `_place_with_rules(x, y, who)`: the stone is placed and
`last_move` set; the forbidden-move failure paths reset the cell to
`EMPTY` and set `last_move` to `None`. -/
def place_with_rules (g : GomokuGame) (x y : Int) (who : Nat) :
    Bool × String × GomokuGame :=
  let g1 := { g with board := setC g.board x y who, last_move := some (x, y) }
  if who == O then
    if is_five_or_more_from g1.size g1.board x y O then
      (true, msg_decided, { g1 with finished := true, winner := some O })
    else if is_draw g1.size g1.board then
      (true, msg_decided, { g1 with finished := true, winner := none })
    else (true, msg_ok, { g1 with turn := X })
  else
    if creates_overline g1.size g1.board x y X then
      (false, msg_overline,
       { g1 with board := setC g1.board x y EMPTY, last_move := none })
    else if is_exact_five_from g1.size g1.board x y X then
      (true, msg_decided, { g1 with finished := true, winner := some X })
    else
      let p44 := is_forbidden_44St g1.size g1.board x y
      let g2 := { g1 with board := p44.2 }
      if p44.1 then
        (false, msg_44,
         { g2 with board := setC g2.board x y EMPTY, last_move := none })
      else if is_forbidden_33 g2.size g2.board x y then
        (false, msg_33,
         { g2 with board := setC g2.board x y EMPTY, last_move := none })
      else if is_draw g2.size g2.board then
        (true, msg_decided, { g2 with finished := true, winner := none })
      else (true, msg_ok, { g2 with turn := O })

/-- Source `place(x1, y1, user_id)`: 1-indexed input coordinates. -/
def place (g : GomokuGame) (x1 y1 : Int) (user_id : Nat) :
    Bool × String × GomokuGame :=
  if g.finished then (false, msg_finished, g)
  else if !can_play g user_id then (false, msg_not_your_turn, g)
  else
    let x := x1 - 1
    let y := y1 - 1
    if !inside g.size x y then (false, msg_range g.size, g)
    else if !(g.board x y == EMPTY) then (false, msg_occupied, g)
    else place_with_rules g x y g.turn

/-- Source `_opponent(who)`. -/
def opponent (who : Nat) : Nat := if who == X then O else X

/-- Source `_is_win_if_put(x, y, who)`: place, test the side's winning
condition, restore (embedded purely via a hypothetical board). -/
def is_win_if_put (n : Nat) (b : Board) (x y : Int) (who : Nat) : Bool :=
  let b1 := setC b x y who
  if who == X then
    is_exact_five_from n b1 x y X && !creates_overline n b1 x y X
  else is_five_or_more_from n b1 x y O

/-- All board cells in the scan order of the source's nested loops
(`for y in range(n): for x in range(n):`). -/
def allCells (n : Nat) : List (Int × Int) :=
  (List.range n).flatMap fun (y : Nat) =>
    (List.range n).map fun (x : Nat) => ((x : Int), (y : Int))

/-- Source `_find_immediate_win(who)`: first cell in scan order that is
empty, legal for X when `who` is X, and wins at once. -/
def find_immediate_win (n : Nat) (b : Board) (who : Nat) : Option (Int × Int) :=
  (allCells n).find? fun c =>
    (b c.1 c.2 == EMPTY) && !(who == X && !is_legal_moveB n b c.1 c.2 X)
      && is_win_if_put n b c.1 c.2 who

/-- Source `_find_immediate_block(who)`. -/
def find_immediate_block (n : Nat) (b : Board) (who : Nat) : Option (Int × Int) :=
  let opp := opponent who
  (allCells n).find? fun c =>
    (b c.1 c.2 == EMPTY) && !(opp == X && !is_legal_moveB n b c.1 c.2 X)
      && is_win_if_put n b c.1 c.2 opp
      && !(who == X && !is_legal_moveB n b c.1 c.2 X)

/-- Append an element unless already present.  The source collects these
cells in a Python `set` and then iterates over it; the set's iteration
order is unspecified, and no property proved below depends on the order,
so the set is embedded as an insertion-ordered duplicate-free list. -/
def add_if_new (l : List (Int × Int)) (a : Int × Int) : List (Int × Int) :=
  if a ∈ l then l else l ++ [a]

/-- The `(dx, dy)` offsets of a square neighbourhood scan
(`for dy in range(-radius, radius + 1): for dx in ...`). -/
def square_offsets (radius : Nat) : List (Int × Int) :=
  (List.range (2 * radius + 1)).flatMap fun (dy : Nat) =>
    (List.range (2 * radius + 1)).map fun (dx : Nat) =>
      ((dx : Int) - (radius : Int), (dy : Int) - (radius : Int))

/-- Source `_threat_candidates(who, radius)`. -/
def threat_candidates (n : Nat) (b : Board) (who : Nat) (radius : Nat) :
    List (Int × Int) :=
  let stones := (allCells n).filter fun c => !(b c.1 c.2 == EMPTY)
  match stones with
  | [] => [(((n / 2 : Nat) : Int), ((n / 2 : Nat) : Int))]
  | _ =>
    let cand := stones.foldl (fun acc s =>
      (square_offsets radius).foldl (fun acc2 o =>
        let nx := s.1 + o.1
        let ny := s.2 + o.2
        if inside n nx ny && (b nx ny == EMPTY) then add_if_new acc2 (nx, ny)
        else acc2) acc) []
    cand.filter fun c => !(who == X && !is_legal_moveB n b c.1 c.2 X)

/-- Loop of `_count_immediate_wins` with the early-stop cutoff. -/
def count_immediate_wins_aux (n : Nat) (b : Board) (who stop : Nat) :
    List (Int × Int) → Nat → Nat
  | [], cnt => cnt
  | c :: rest, cnt =>
    if (b c.1 c.2 == EMPTY) && !(who == X && !is_legal_moveB n b c.1 c.2 X)
        && is_win_if_put n b c.1 c.2 who then
      if stop ≤ cnt + 1 then cnt + 1
      else count_immediate_wins_aux n b who stop rest (cnt + 1)
    else count_immediate_wins_aux n b who stop rest cnt

/-- Source `_count_immediate_wins(who, early_stop)`. -/
def count_immediate_wins (n : Nat) (b : Board) (who stop : Nat) : Nat :=
  count_immediate_wins_aux n b who stop (allCells n) 0

/-- Source `_is_fork_move(x, y, who)`. -/
def is_fork_move (n : Nat) (b : Board) (x y : Int) (who : Nat) : Bool :=
  if !(b x y == EMPTY) then false
  else if who == X && !is_legal_moveB n b x y X then false
  else decide (2 ≤ count_immediate_wins n (setC b x y who) who 2)

/-- Source `_find_fork_moves(who)`. -/
def find_fork_moves (n : Nat) (b : Board) (who : Nat) : List (Int × Int) :=
  (threat_candidates n b who 3).filter fun c => is_fork_move n b c.1 c.2 who

/-- Fuelled embedding of the `walk` closure of `_line_features_if_put`:
returns the run count from `(cx, cy)` onwards and whether the first
failing cell is an in-board empty cell (the open end). -/
def walk_aux (n : Nat) (b : Board) (who : Nat) (sx sy : Int) :
    Nat → Int → Int → Nat × Nat
  | 0, _, _ => (0, 0)
  | fuel + 1, cx, cy =>
    if inside n cx cy && (b cx cy == who) then
      let r := walk_aux n b who sx sy fuel (cx + sx) (cy + sy)
      (r.1 + 1, r.2)
    else (0, if inside n cx cy && (b cx cy == EMPTY) then 1 else 0)

/-- Source `_line_features_if_put(x, y, who, dx, dy)`:
`(run length, open ends)` of the hypothetical placement. -/
def line_features_if_put (n : Nat) (b : Board) (x y : Int) (who : Nat)
    (dx dy : Int) : Nat × Nat :=
  let w1 := walk_aux n b who dx dy n (x + dx) (y + dy)
  let w2 := walk_aux n b who (-dx) (-dy) n (x - dx) (y - dy)
  (1 + w1.1 + w2.1, w1.2 + w2.2)

/-- The run-length/open-ends score table of `_eval_move.score_for`. -/
def score_for_table (p : Nat) (length open_ends : Nat) : Nat :=
  if p == O then
    if 5 ≤ length then 1000000
    else if length == 4 then
      (if open_ends == 2 then 120000 else if open_ends == 1 then 30000 else 0)
    else if length == 3 then
      (if open_ends == 2 then 12000 else if open_ends == 1 then 3000 else 0)
    else if length == 2 then
      (if open_ends == 2 then 1200 else if open_ends == 1 then 300 else 0)
    else 0
  else
    if 5 ≤ length then 800000
    else if length == 4 then
      (if open_ends == 2 then 110000 else if open_ends == 1 then 25000 else 0)
    else if length == 3 then
      (if open_ends == 2 then 11000 else if open_ends == 1 then 2500 else 0)
    else if length == 2 then
      (if open_ends == 2 then 1000 else if open_ends == 1 then 250 else 0)
    else 0

/-- The `score_for(p)` closure of `_eval_move`: directional sum. -/
def score_for (n : Nat) (b : Board) (x y : Int) (p : Nat) : Nat :=
  dirs.foldl (fun s d =>
    let f := line_features_if_put n b x y p d.1 d.2
    s + score_for_table p f.1 f.2) 0

/-- Source `_eval_move(x, y, who)`.  Python evaluates
`int(defense * 0.95)` in floating point; since `defense` is a
non-negative int this truncation is embedded as the exact rational
floor `defense * 95 / 100`, and the float centre bonus
`int(120 - dist * 6)` (with `dist` a multiple of `0.5`, so exact in
floating point) as `120 - 3 * (|2x-(n-1)| + |2y-(n-1)|)`.  No claim
proved below depends on the numeric score values. -/
def eval_move (n : Nat) (b : Board) (x y : Int) (who : Nat) : Int :=
  if !(b x y == EMPTY) then -1000000000
  else if who == X && !is_legal_moveB n b x y X then -1000000000
  else
    let opp := opponent who
    if is_win_if_put n b x y who then 100000000
    else if (opp == X && is_legal_moveB n b x y X || opp == O)
        && is_win_if_put n b x y opp then 90000000
    else
      let attack := score_for n b x y who
      let defense := score_for n b x y opp
      let d2 := (x * 2 - ((n : Int) - 1)).natAbs + (y * 2 - ((n : Int) - 1)).natAbs
      (attack : Int) + ((defense * 95 / 100 : Nat) : Int) + (120 - 3 * (d2 : Int))

/-- Source `_find_fork_block(who)`: the best-scoring opponent fork cell
(`best`/`best_s` loop, first maximum kept on ties). -/
def find_fork_block (n : Nat) (b : Board) (who : Nat) : Option (Int × Int) :=
  let opp := opponent who
  let forks := find_fork_moves n b opp
  match forks with
  | [] => none
  | _ =>
    (forks.foldl (fun (acc : Option (Int × Int) × Int) c =>
      if !(b c.1 c.2 == EMPTY) then acc
      else if who == X && !is_legal_moveB n b c.1 c.2 X then acc
      else
        let s := eval_move n b c.1 c.2 who
        if decide (acc.2 < s) then (some c, s) else acc)
      (none, -1000000000000000000)).1

/-- Stable insertion for `sort_desc`. -/
def insert_desc {α : Type} (key : α → Int) (a : α) : List α → List α
  | [] => [a]
  | b :: l => if decide (key b ≤ key a) then a :: b :: l else b :: insert_desc key a l

/-- Stable descending sort by an integer key, matching Python's stable
`list.sort(key=..., reverse=True)`. -/
def sort_desc {α : Type} (key : α → Int) : List α → List α
  | [] => []
  | a :: l => insert_desc key a (sort_desc key l)

/-- Source `_candidate_moves_near(radius, limit, who, forced)`. -/
def candidate_moves_near (n : Nat) (b : Board) (radius limit : Nat) (who : Nat)
    (forced : List (Int × Int)) : List (Int × Int) :=
  let stones := (allCells n).filter fun c => !(b c.1 c.2 == EMPTY)
  match stones with
  | [] => [(((n / 2 : Nat) : Int), ((n / 2 : Nat) : Int))]
  | _ =>
    let cand0 := forced.foldl (fun acc f =>
      if inside n f.1 f.2 && (b f.1 f.2 == EMPTY) then
        if who == X && !is_legal_moveB n b f.1 f.2 X then acc
        else add_if_new acc f
      else acc) []
    let cand := stones.foldl (fun acc s =>
      (square_offsets radius).foldl (fun acc2 o =>
        let nx := s.1 + o.1
        let ny := s.2 + o.2
        if inside n nx ny && (b nx ny == EMPTY) then add_if_new acc2 (nx, ny)
        else acc2) acc) cand0
    let legal := cand.filter fun c => !(who == X && !is_legal_moveB n b c.1 c.2 X)
    match legal with
    | [] => []
    | _ =>
      let must_keep := legal.filter fun m => forced.contains m
      let rest := legal.filter fun m => !forced.contains m
      let scored := rest.map fun c => (eval_move n b c.1 c.2 who, c)
      let sorted := sort_desc (fun t => t.1) scored
      let top := sorted.take (limit - must_keep.length)
      let merged := must_keep ++ top.map fun t => t.2
      merged.foldl add_if_new []

/-- Source `_static_eval_board(who)`.  The float expression
`int(best_who - best_opp * 0.92)` is embedded as the exact
toward-zero truncation `(best_who * 100 - best_opp * 92).tdiv 100`;
no claim proved below depends on the numeric value. -/
def static_eval_board (n : Nat) (b : Board) (who : Nat) : Int :=
  let near := (allCells n).foldl (fun acc c =>
    if b c.1 c.2 == EMPTY then acc
    else (square_offsets 1).foldl (fun acc2 o =>
      let nx := c.1 + o.1
      let ny := c.2 + o.2
      if inside n nx ny && (b nx ny == EMPTY) then add_if_new acc2 (nx, ny)
      else acc2) acc) []
  match near with
  | [] =>
    let c : Int := ((n / 2 : Nat) : Int)
    if !(b c c == EMPTY) then 0 else 50
  | _ =>
    let opp := opponent who
    let best_who := near.foldl (fun best c =>
      if who == X && !is_legal_moveB n b c.1 c.2 X then best
      else max best (eval_move n b c.1 c.2 who)) (-1000000000000000000)
    let best_opp := near.foldl (fun best c =>
      if opp == X && !is_legal_moveB n b c.1 c.2 X then best
      else max best (eval_move n b c.1 c.2 opp)) (-1000000000000000000)
    (best_who * 100 - best_opp * 92).tdiv 100

/-- Python `random.choice(l)` with the random draw supplied as an
oracle index `rnd` (only ever applied to non-empty lists, as in the
source; the default is unreachable there). -/
def choice {α : Type} (l : List α) (rnd : Nat) (dflt : α) : α :=
  l.getD (rnd % l.length) dflt

/-- Source `_ai_move_easy(who)`. -/
def ai_move_easy (g : GomokuGame) (who : Nat) (rnd : Nat) : Int × Int :=
  match find_immediate_win g.size g.board who with
  | some m => m
  | none =>
  match find_immediate_block g.size g.board who with
  | some m => m
  | none =>
    let moves := candidate_moves_near g.size g.board 2 18 who []
    match moves with
    | [] => (((g.size / 2 : Nat) : Int), ((g.size / 2 : Nat) : Int))
    | _ => choice moves rnd (((g.size / 2 : Nat) : Int), ((g.size / 2 : Nat) : Int))

/-- Source `_ai_move_normal(who)`. -/
def ai_move_normal (g : GomokuGame) (who : Nat) (rnd : Nat) : Int × Int :=
  match find_immediate_win g.size g.board who with
  | some m => m
  | none =>
  match find_immediate_block g.size g.board who with
  | some m => m
  | none =>
  match find_fork_block g.size g.board who with
  | some m => m
  | none =>
    let moves := candidate_moves_near g.size g.board 2 20 who []
    match moves with
    | [] => (((g.size / 2 : Nat) : Int), ((g.size / 2 : Nat) : Int))
    | _ =>
      let scored := moves.map fun c => (eval_move g.size g.board c.1 c.2 who, c)
      let sorted := sort_desc (fun t => t.1) scored
      let top := sorted.take (min 6 sorted.length)
      (choice top rnd (0, 0, 0)).2

/-- The `negamax` closure of `_ai_move_hard`, with the speculative
board/turn state passed explicitly; `fin`/`winr` are the game's
`finished`/`winner` at entry, never modified during recursion (the
`ended` branch returns without recursing).  The search depth is a
`Nat`; `ai_move` always calls with depth 2 (Python's behaviour for a
negative remaining depth is not modelled, it is unreachable from
`ai_move`).  Alpha-beta `break` is embedded with a done flag. -/
def negamax (n : Nat) (who opp radius limit : Nat) (fin : Bool)
    (winr : Option Nat) : Nat → Board → Nat → Int → Int → Int
  | d, b, turn, alpha, beta =>
    if fin then
      if winr == some who then 1000000000
      else if winr == some opp then -1000000000
      else 0
    else
      match d with
      | 0 => static_eval_board n b who
      | d' + 1 =>
        let cand := candidate_moves_near n b radius limit turn []
        match cand with
        | [] => 0
        | _ =>
          (cand.foldl (fun (st : Int × Int × Bool) c =>
            if st.2.2 then st
            else
              let b1 := setC b c.1 c.2 turn
              let ended := if turn == X then is_exact_five_from n b1 c.1 c.2 X
                           else is_five_or_more_from n b1 c.1 c.2 O
              let val := if ended then
                  (if turn == who then (1000000000 : Int) else -1000000000)
                else - negamax n who opp radius limit fin winr d' b1
                       (opponent turn) (-beta) (-st.2.1)
              let best := if st.1 < val then val else st.1
              let alpha2 := if st.2.1 < best then best else st.2.1
              (best, alpha2, decide (beta ≤ alpha2)))
            (-1000000000000000000, alpha, false)).1

/-- Source `_ai_move_hard(who, depth, radius, candidate_limit)`.  The
root loop's early return on an immediately winning candidate is
embedded with an `Option` short-circuit in the fold state. -/
def ai_move_hard (g : GomokuGame) (who : Nat) (depth radius limit : Nat)
    (rnd : Nat) : Int × Int :=
  let n := g.size
  let b := g.board
  let opp := opponent who
  match find_immediate_win n b who with
  | some m => m
  | none =>
  match find_immediate_block n b who with
  | some m => m
  | none =>
  match find_fork_block n b who with
  | some m => m
  | none =>
  match find_fork_moves n b who with
  | f0 :: frest =>
    frest.foldl (fun best c =>
      if eval_move n b best.1 best.2 who < eval_move n b c.1 c.2 who then c
      else best) f0
  | [] =>
    let forced := (allCells n).filter fun c =>
      (b c.1 c.2 == EMPTY) && !(opp == X && !is_legal_moveB n b c.1 c.2 X)
        && is_win_if_put n b c.1 c.2 opp
    let moves := candidate_moves_near n b radius limit who forced
    match moves with
    | [] => ai_move_normal g who rnd
    | m0 :: _ =>
      let res := moves.foldl (fun (st : Option (Int × Int) × Int × (Int × Int)) c =>
        match st.1 with
        | some _ => st
        | none =>
          let b1 := setC b c.1 c.2 who
          if (who == X && is_exact_five_from n b1 c.1 c.2 X)
              || (who == O && is_five_or_more_from n b1 c.1 c.2 O) then
            (some c, st.2)
          else
            let val := - negamax n who opp radius limit g.finished g.winner
                (depth - 1) b1 opp (-1000000000000000000) 1000000000000000000
            if st.2.1 < val then (none, val, c) else st)
        (none, -1000000000000000000, m0)
      match res.1 with
      | some m => m
      | none => res.2.2

/-- The `RuntimeError` message of `ai_move`. -/
def ai_wrong_turn_msg : String := "ai_move called but it's not AI turn"

/-- Python `str.lower()` (applied characterwise; the levels compared
against are plain ASCII). -/
def lower_string (s : String) : String := ⟨s.data.map Char.toLower⟩

/-- The `lvl` value of `ai_move`: `(self.ai_level or "easy").lower()`,
following Python truthiness (both `None` and the empty string fall
back to `"easy"`). -/
def ai_level_string (g : GomokuGame) : String :=
  lower_string (match g.ai_level with
    | none => "easy"
    | some s => if s == "" then "easy" else s)

/-- Source `ai_move()`: the `raise RuntimeError` when it is not the AI's
turn is embedded as `Except.error`. -/
def ai_move (g : GomokuGame) (rnd : Nat) : Except String (Int × Int) :=
  if !is_ai_turn g then Except.error ai_wrong_turn_msg
  else if ai_level_string g == "hard" then
    Except.ok (ai_move_hard g g.turn 2 2 40 rnd)
  else if ai_level_string g == "normal" then
    Except.ok (ai_move_normal g g.turn rnd)
  else Except.ok (ai_move_easy g g.turn rnd)

/-- Modelled from the spec: the spec's description of
`is_legal(board, x, y, side)` — false if out of bounds or occupied; for
the restricted side false on overline, double-four or double-three
*after applying the win-over-forbidden exception* (a placement that
also produces a winning exact five is permitted despite a double-four
or double-three); true otherwise.  Stated for comparison with the
source's `is_legal_move`. -/
def c1_spec_legal (n : Nat) (b : Board) (x y : Int) (who : Nat) : Bool :=
  inside n x y && (b x y == EMPTY) &&
    (who != X ||
      (let b1 := setC b x y who
       !creates_overline n b1 x y X &&
         (!(is_forbidden_44 n b1 x y || is_forbidden_33 n b1 x y)
           || is_exact_five_from n b1 x y X)))

/-- Build a finite board literal from a stone list `(x, y, colour)`. -/
def boardOf (l : List (Int × Int × Nat)) : Board := fun x y =>
  ((l.find? fun e => e.1 == x && e.2.1 == y).map fun e => e.2.2).getD EMPTY

/-- The all-empty board. -/
def empty_board : Board := fun _ _ => EMPTY

/-- Board where placing X at `(5, 5)` completes an exact five
horizontally while simultaneously creating open threes vertically and
on the main diagonal (a double three). -/
def bC1 : Board := boardOf
  [(1, 5, 1), (2, 5, 1), (3, 5, 1), (4, 5, 1),
   (5, 4, 1), (5, 6, 1), (4, 4, 1), (6, 6, 1)]

/-- Game around `bC1`, Black (X) to move. -/
def gC1 : GomokuGame :=
  { size := 9, mode := "pvp", player_x := some 7, player_o := some 8,
    ai_level := none, turn := 1, finished := false, winner := none,
    last_move := some (6, 6), board := bC1 }

/-- Board where placing X at `(5, 5)` makes a horizontal run of 7
(an overline). -/
def bC2 : Board := boardOf
  [(1, 5, 1), (2, 5, 1), (3, 5, 1), (4, 5, 1), (6, 5, 1), (7, 5, 1)]

/-- Game around `bC2`, Black (X) to move, with a recorded last move. -/
def gC2 : GomokuGame :=
  { size := 9, mode := "pvp", player_x := some 7, player_o := some 8,
    ai_level := none, turn := 1, finished := false, winner := none,
    last_move := some (7, 5), board := bC2 }

/-- Board where placing X at `(5, 5)` creates open threes in two
directions and nothing else (a plain double three). -/
def bC5 : Board := boardOf [(5, 4, 1), (5, 6, 1), (4, 4, 1), (6, 6, 1)]

/-- Game around `bC5`, Black (X) to move. -/
def gC5 : GomokuGame :=
  { size := 9, mode := "pvp", player_x := some 7, player_o := some 8,
    ai_level := none, turn := 1, finished := false, winner := none,
    last_move := some (6, 6), board := bC5 }

/-- Board where placing X at `(5, 5)` makes a horizontal run of 6
(overline) and at the same time creates open threes in two other
directions, with no exact five. -/
def bC5x : Board := boardOf
  [(1, 5, 1), (2, 5, 1), (3, 5, 1), (4, 5, 1), (6, 5, 1),
   (5, 4, 1), (5, 6, 1), (4, 4, 1), (6, 6, 1)]

/-- Game around `bC5x`, Black (X) to move. -/
def gC5x : GomokuGame :=
  { size := 9, mode := "pvp", player_x := some 7, player_o := some 8,
    ai_level := none, turn := 1, finished := false, winner := none,
    last_move := some (6, 6), board := bC5x }

/-- Game where Black completes an exact five by placing at `(4, 0)`
(input coordinates `(5, 1)`). -/
def gW3 : GomokuGame :=
  { size := 9, mode := "pvp", player_x := some 7, player_o := some 8,
    ai_level := none, turn := 1, finished := false, winner := none,
    last_move := some (3, 0),
    board := boardOf [(0, 0, 1), (1, 0, 1), (2, 0, 1), (3, 0, 1)] }

/-- Game where White completes a run of six by placing at `(4, 0)`
(input coordinates `(5, 1)`). -/
def gW4 : GomokuGame :=
  { size := 9, mode := "pvp", player_x := some 7, player_o := some 8,
    ai_level := none, turn := 2, finished := false, winner := none,
    last_move := some (5, 0),
    board := boardOf [(0, 0, 2), (1, 0, 2), (2, 0, 2), (3, 0, 2), (5, 0, 2)] }

/-- Hard-tier AI game, White (the AI) to move with an immediate win
available at `(4, 0)`. -/
def gW7 : GomokuGame :=
  { size := 9, mode := "ai", player_x := some 7, player_o := none,
    ai_level := some "hard", turn := 2, finished := false, winner := none,
    last_move := some (3, 0),
    board := boardOf [(0, 0, 2), (1, 0, 2), (2, 0, 2), (3, 0, 2),
                      (0, 2, 1), (1, 2, 1), (2, 2, 1)] }

/-- Easy-tier AI game with the AI (White) to move. -/
def gW8a : GomokuGame :=
  { size := 9, mode := "ai", player_x := some 7, player_o := none,
    ai_level := some "easy", turn := 2, finished := false, winner := none,
    last_move := some (4, 4), board := boardOf [(4, 4, 1)] }

/-- A finished game (so `ai_move` must fail). -/
def gW8f : GomokuGame :=
  { size := 9, mode := "ai", player_x := some 7, player_o := none,
    ai_level := some "easy", turn := 2, finished := true, winner := some 1,
    last_move := some (4, 4), board := boardOf [(4, 4, 1)] }

/-! Helper lemmas. -/

theorem setC_setC (b : Board) (x y : Int) (v w : Nat) :
    setC (setC b x y v) x y w = setC b x y w := by
  funext x' y'
  by_cases h : x' = x ∧ y' = y <;> simp [setC, h]

theorem setC_same (b : Board) (x y : Int) (v : Nat) (h : b x y = v) :
    setC b x y v = b := by
  funext x' y'
  by_cases hxy : x' = x ∧ y' = y
  · obtain ⟨hx, hy⟩ := hxy
    subst hx; subst hy
    simp [setC, h]
  · simp [setC, hxy]

theorem wc_candidates_empty (n : Nat) (b : Board) (x y dx dy : Int) :
    ∀ c ∈ wc_candidates n b x y dx dy, b c.1 c.2 = EMPTY := by
  intro c hc
  simp only [wc_candidates, List.mem_filterMap, List.mem_range] at hc
  obtain ⟨i, _, hi⟩ := hc
  split at hi
  · rename_i hcond
    cases hi
    simp only [Bool.and_eq_true, beq_iff_eq] at hcond
    exact hcond.2
  · cases hi

theorem wc_foldl (n : Nat) (b : Board) (l : List (Int × Int))
    (hl : ∀ c ∈ l, b c.1 c.2 = EMPTY) (k : Nat) :
    l.foldl (wc_step n) (k, b) = (k + l.countP (wc_win n b), b) := by
  induction l generalizing k with
  | nil => simp
  | cons c t ih =>
    have hc : b c.1 c.2 = EMPTY := hl c (by simp)
    have ht : ∀ c' ∈ t, b c'.1 c'.2 = EMPTY := fun c' h' => hl c' (by simp [h'])
    have hb : setC (setC b c.1 c.2 X) c.1 c.2 EMPTY = b := by
      rw [setC_setC]; exact setC_same b c.1 c.2 EMPTY hc
    simp only [List.foldl_cons]
    have hstep : wc_step n (k, b) c =
        (if wc_win n b c then k + 1 else k, b) := by
      simp only [wc_step, wc_win, hb]
    rw [hstep]
    rw [ih ht]
    rw [List.countP_cons]
    by_cases hw : wc_win n b c = true
    · rw [if_pos hw, if_pos hw]
      simp only [Prod.mk.injEq]
      exact ⟨by omega, trivial⟩
    · rw [if_neg hw, if_neg hw]
      simp only [Prod.mk.injEq]
      exact ⟨by omega, trivial⟩

theorem winning_cells_St_eq (n : Nat) (b : Board) (x y dx dy : Int) :
    winning_cells_in_dir_for_xSt n b x y dx dy =
      (winning_cells_in_dir_for_x n b x y dx dy, b) := by
  unfold winning_cells_in_dir_for_xSt winning_cells_in_dir_for_x
  rw [wc_foldl n b _ (wc_candidates_empty n b x y dx dy) 0]
  simp

theorem is_forbidden_44St_eq (n : Nat) (b : Board) (x y : Int) :
    is_forbidden_44St n b x y = (is_forbidden_44 n b x y, b) := by
  simp [is_forbidden_44St, is_forbidden_44, dirs, winning_cells_St_eq]

theorem is_legal_move_spec (g : GomokuGame) (x y : Int) (who : Nat) :
    is_legal_move g x y who = (is_legal_moveB g.size g.board x y who, g) := by
  unfold is_legal_move is_legal_moveB
  by_cases h1 : inside g.size x y
  · by_cases h2 : g.board x y == EMPTY
    · have hemp : g.board x y = EMPTY := by simpa using h2
      have hb : ∀ v : Nat, setC (setC g.board x y v) x y EMPTY = g.board := by
        intro v
        rw [setC_setC]; exact setC_same g.board x y EMPTY hemp
      have hg : ∀ v : Nat,
          ({ g with board := setC (setC g.board x y v) x y EMPTY } : GomokuGame)
            = g := by
        intro v; rw [hb]
      simp only [h1, h2, Bool.not_true, Bool.false_eq_true, if_false,
        is_forbidden_44St_eq]
      by_cases h3 : who == X
      · simp only [h3, if_true]
        by_cases h4 : creates_overline g.size (setC g.board x y who) x y X
        · simp [h4, hg]
        · simp [h4, hg, Bool.and_assoc]
          by_cases h5 : is_forbidden_44 g.size (setC g.board x y who) x y <;>
            simp [h5, hg]
      · simp [h3, hg]
    · simp [h1, h2]
  · simp [h1]

theorem place_unfold (g : GomokuGame) (x1 y1 : Int) (uid : Nat) :
    place g x1 y1 uid =
      if g.finished then (false, msg_finished, g)
      else if !can_play g uid then (false, msg_not_your_turn, g)
      else if !inside g.size (x1 - 1) (y1 - 1) then (false, msg_range g.size, g)
      else if !(g.board (x1 - 1) (y1 - 1) == EMPTY) then (false, msg_occupied, g)
      else place_with_rules g (x1 - 1) (y1 - 1) g.turn := rfl

theorem place_with_rules_eq (g : GomokuGame) (x y : Int) (who : Nat) :
    place_with_rules g x y who =
      if who == O then
        if is_five_or_more_from g.size (setC g.board x y who) x y O then
          (true, msg_decided,
           { g with board := setC g.board x y who, last_move := some (x, y),
                    finished := true, winner := some O })
        else if is_draw g.size (setC g.board x y who) then
          (true, msg_decided,
           { g with board := setC g.board x y who, last_move := some (x, y),
                    finished := true, winner := none })
        else (true, msg_ok,
              { g with board := setC g.board x y who, last_move := some (x, y),
                       turn := X })
      else
        if creates_overline g.size (setC g.board x y who) x y X then
          (false, msg_overline,
           { g with board := setC (setC g.board x y who) x y EMPTY,
                    last_move := none })
        else if is_exact_five_from g.size (setC g.board x y who) x y X then
          (true, msg_decided,
           { g with board := setC g.board x y who, last_move := some (x, y),
                    finished := true, winner := some X })
        else if is_forbidden_44 g.size (setC g.board x y who) x y then
          (false, msg_44,
           { g with board := setC (setC g.board x y who) x y EMPTY,
                    last_move := none })
        else if is_forbidden_33 g.size (setC g.board x y who) x y then
          (false, msg_33,
           { g with board := setC (setC g.board x y who) x y EMPTY,
                    last_move := none })
        else if is_draw g.size (setC g.board x y who) then
          (true, msg_decided,
           { g with board := setC g.board x y who, last_move := some (x, y),
                    finished := true, winner := none })
        else (true, msg_ok,
              { g with board := setC g.board x y who, last_move := some (x, y),
                       turn := O }) := by
  unfold place_with_rules
  simp only [is_forbidden_44St_eq]

theorem is_exact_five_iff (n : Nat) (b : Board) (x y : Int) (who : Nat) :
    is_exact_five_from n b x y who = true ↔
      ∃ d ∈ dirs, max_run_in_dir n b x y d.1 d.2 who = 5 := by
  simp [is_exact_five_from, List.any_eq_true]

theorem is_exact_five_false_iff (n : Nat) (b : Board) (x y : Int) (who : Nat) :
    is_exact_five_from n b x y who = false ↔
      ∀ d ∈ dirs, ¬max_run_in_dir n b x y d.1 d.2 who = 5 := by
  simp [is_exact_five_from, List.any_eq_false]

theorem creates_overline_false_iff (n : Nat) (b : Board) (x y : Int) (who : Nat) :
    creates_overline n b x y who = false ↔
      ∀ d ∈ dirs, max_run_in_dir n b x y d.1 d.2 who < 6 := by
  simp [creates_overline, List.any_eq_false, Nat.not_le]

theorem is_five_or_more_iff (n : Nat) (b : Board) (x y : Int) (who : Nat) :
    is_five_or_more_from n b x y who = true ↔
      ∃ d ∈ dirs, 5 ≤ max_run_in_dir n b x y d.1 d.2 who := by
  simp [is_five_or_more_from, List.any_eq_true]

theorem is_five_or_more_false_iff (n : Nat) (b : Board) (x y : Int) (who : Nat) :
    is_five_or_more_from n b x y who = false ↔
      ∀ d ∈ dirs, max_run_in_dir n b x y d.1 d.2 who < 5 := by
  simp [is_five_or_more_from, List.any_eq_false, Nat.not_le]

/-! Claim theorems. -/

/-- C6: for every board state, coordinate and side, `is_legal_move`
returns the game state unchanged — the board grid equals its pre-call
snapshot (all speculative single-cell trials, including the
double-four winning-cell trials, are rolled back) and `last_move`,
`turn`, `finished` and `winner` are untouched. -/
theorem C6_is_legal_move_preserves_state (g : GomokuGame) (x y : Int) (who : Nat) :
    (is_legal_move g x y who).2 = g := by
  rw [is_legal_move_spec]

/-- C10: for the unrestricted side (White/O), `is_legal_move` returns
true exactly when the coordinate is inside the board and the cell is
empty; none of the forbidden-move checks is applied to White. -/
theorem C10_white_legality (g : GomokuGame) (x y : Int) :
    (is_legal_move g x y O).1 = (inside g.size x y && (g.board x y == EMPTY)) := by
  rw [is_legal_move_spec]
  unfold is_legal_moveB
  by_cases h1 : inside g.size x y
  · by_cases h2 : g.board x y == EMPTY <;> simp [h1, h2, O, X]
  · simp [h1]

/-- C1 (amended): `is_legal_move(x, y, side)` returns false if the
coordinate is out of bounds or the cell occupied; for the restricted
side (X) it returns false exactly when the placement would create an
overline, a double-four or a double-three, with **no**
win-over-forbidden exception (a placement that completes a winning
exact five is still reported illegal when it forms a double-four or
double-three — the exception exists only in `place`); in all other
cases it returns true. -/
theorem C1_is_legal_move_characterisation (g : GomokuGame) (x y : Int) (who : Nat) :
    (is_legal_move g x y who).1 =
      (inside g.size x y && (g.board x y == EMPTY) &&
        (who != X ||
          (!creates_overline g.size (setC g.board x y who) x y X
            && !is_forbidden_44 g.size (setC g.board x y who) x y
            && !is_forbidden_33 g.size (setC g.board x y who) x y))) := by
  rw [is_legal_move_spec]
  unfold is_legal_moveB
  by_cases h1 : inside g.size x y
  · by_cases h2 : g.board x y == EMPTY
    · by_cases h3 : who == X
      · have hx : who = X := beq_iff_eq.mp h3
        simp [h1, h2, h3, hx]
      · have hx : ¬who = X := fun hh => h3 (by simp [hh])
        simp [h1, h2, h3, hx]
    · simp [h1, h2]
  · simp [h1]

/-- C1 counterexample: on `gC1`, placing X at `(5, 5)` completes a
winning exact five (so the claim's win-over-forbidden exception calls
it legal — `c1_spec_legal` is true), yet `is_legal_move` returns
false. -/
theorem C1_counterexample :
    (is_legal_move gC1 5 5 X).1 = false ∧
      c1_spec_legal gC1.size gC1.board 5 5 X = true := by
  constructor
  · decide
  · decide

/-- C2 (amended): whenever `place` returns a failure, the board grid,
`turn`, `finished` and `winner` equal their pre-call values; moreover
each of the four early failures (game finished, wrong turn,
out-of-range, occupied cell) returns the game state entirely
unchanged, `last_move` included, while a failure that passed all four
guards is one of the three forbidden-move rejections and sets
`last_move` to `none` instead of restoring it. -/
theorem C2_place_failure_restores (g : GomokuGame) (x1 y1 : Int) (uid : Nat)
    (h : (place g x1 y1 uid).1 = false) :
    (place g x1 y1 uid).2.2.board = g.board ∧
    (place g x1 y1 uid).2.2.turn = g.turn ∧
    (place g x1 y1 uid).2.2.finished = g.finished ∧
    (place g x1 y1 uid).2.2.winner = g.winner ∧
    ((g.finished = true ∨ can_play g uid = false ∨
      inside g.size (x1 - 1) (y1 - 1) = false ∨
      ¬g.board (x1 - 1) (y1 - 1) = EMPTY) →
      (place g x1 y1 uid).2.2 = g) ∧
    ((g.finished = false ∧ can_play g uid = true ∧
      inside g.size (x1 - 1) (y1 - 1) = true ∧
      g.board (x1 - 1) (y1 - 1) = EMPTY) →
      ((place g x1 y1 uid).2.1 = msg_overline ∨
        (place g x1 y1 uid).2.1 = msg_44 ∨
        (place g x1 y1 uid).2.1 = msg_33) ∧
      (place g x1 y1 uid).2.2.last_move = none) := by
  rw [place_unfold] at h ⊢
  by_cases hf : g.finished = true
  · rw [if_pos hf] at h ⊢
    exact ⟨rfl, rfl, rfl, rfl, fun _ => rfl,
      fun hcond => absurd hf (by simp [hcond.1])⟩
  · rw [if_neg hf] at h ⊢
    by_cases hcp : (!can_play g uid) = true
    · rw [if_pos hcp] at h ⊢
      have hcpf : can_play g uid = false := by simpa using hcp
      exact ⟨rfl, rfl, rfl, rfl, fun _ => rfl,
        fun hcond => absurd hcond.2.1 (by simp [hcpf])⟩
    · rw [if_neg hcp] at h ⊢
      have hcp' : can_play g uid = true := by simpa using hcp
      by_cases hin : (!inside g.size (x1 - 1) (y1 - 1)) = true
      · rw [if_pos hin] at h ⊢
        have hinf : inside g.size (x1 - 1) (y1 - 1) = false := by simpa using hin
        exact ⟨rfl, rfl, rfl, rfl, fun _ => rfl,
          fun hcond => absurd hcond.2.2.1 (by simp [hinf])⟩
      · rw [if_neg hin] at h ⊢
        have hin' : inside g.size (x1 - 1) (y1 - 1) = true := by simpa using hin
        by_cases hocc : (g.board (x1 - 1) (y1 - 1) == EMPTY) = true
        case neg =>
          rw [if_pos (show (!(g.board (x1 - 1) (y1 - 1) == EMPTY)) = true by
            simp [hocc])] at h ⊢
          have hne : ¬g.board (x1 - 1) (y1 - 1) = EMPTY := fun he => hocc (by simp [he])
          exact ⟨rfl, rfl, rfl, rfl, fun _ => rfl,
            fun hcond => absurd hcond.2.2.2 hne⟩
        case pos =>
          rw [if_neg (show ¬(!(g.board (x1 - 1) (y1 - 1) == EMPTY)) = true by
            simp [hocc])] at h ⊢
          have hemp : g.board (x1 - 1) (y1 - 1) = EMPTY := beq_iff_eq.mp hocc
          have hres : setC (setC g.board (x1 - 1) (y1 - 1) g.turn)
              (x1 - 1) (y1 - 1) EMPTY = g.board := by
            rw [setC_setC]; exact setC_same _ _ _ _ hemp
          have hno : ¬(g.finished = true ∨ can_play g uid = false ∨
              inside g.size (x1 - 1) (y1 - 1) = false ∨
              ¬g.board (x1 - 1) (y1 - 1) = EMPTY) := by
            rintro (hc | hc | hc | hc)
            · exact hf hc
            · rw [hcp'] at hc; cases hc
            · rw [hin'] at hc; cases hc
            · exact hc hemp
          rw [place_with_rules_eq] at h ⊢
          by_cases hwo : (g.turn == O) = true
          · rw [if_pos hwo] at h
            split_ifs at h
          · rw [if_neg hwo] at h ⊢
            by_cases hov : creates_overline g.size
                (setC g.board (x1 - 1) (y1 - 1) g.turn) (x1 - 1) (y1 - 1) X = true
            · rw [if_pos hov] at h ⊢
              exact ⟨hres, rfl, rfl, rfl, fun hc => absurd hc hno,
                fun _ => ⟨Or.inl rfl, rfl⟩⟩
            · rw [if_neg hov] at h ⊢
              by_cases h5 : is_exact_five_from g.size
                  (setC g.board (x1 - 1) (y1 - 1) g.turn) (x1 - 1) (y1 - 1) X = true
              · rw [if_pos h5] at h; simp at h
              · rw [if_neg h5] at h ⊢
                by_cases h44 : is_forbidden_44 g.size
                    (setC g.board (x1 - 1) (y1 - 1) g.turn) (x1 - 1) (y1 - 1) = true
                · rw [if_pos h44] at h ⊢
                  exact ⟨hres, rfl, rfl, rfl, fun hc => absurd hc hno,
                    fun _ => ⟨Or.inr (Or.inl rfl), rfl⟩⟩
                · rw [if_neg h44] at h ⊢
                  by_cases h33 : is_forbidden_33 g.size
                      (setC g.board (x1 - 1) (y1 - 1) g.turn) (x1 - 1) (y1 - 1) = true
                  · rw [if_pos h33] at h ⊢
                    exact ⟨hres, rfl, rfl, rfl, fun hc => absurd hc hno,
                      fun _ => ⟨Or.inr (Or.inr rfl), rfl⟩⟩
                  · rw [if_neg h33] at h ⊢
                    by_cases hd : is_draw g.size
                        (setC g.board (x1 - 1) (y1 - 1) g.turn) = true
                    · rw [if_pos hd] at h; simp at h
                    · rw [if_neg hd] at h; simp at h

/-- C2 counterexample: on `gC2` (pre-call `last_move = some (7, 5)`),
the overline rejection of `place` returns a failure but leaves
`last_move = none`, so the pre-call state is not fully restored. -/
theorem C2_counterexample :
    (place gC2 6 6 7).1 = false ∧
      ¬((place gC2 6 6 7).2.2.last_move = gC2.last_move) := by
  constructor
  · decide
  · decide

/-- C2 witness: the amended theorem applied to the concrete overline
rejection on `gC2`. -/
theorem C2_place_failure_restores_witness :
    (place gC2 6 6 7).1 = false ∧
    ((place gC2 6 6 7).2.2.board = gC2.board ∧
     (place gC2 6 6 7).2.2.turn = gC2.turn ∧
     (place gC2 6 6 7).2.2.finished = gC2.finished ∧
     (place gC2 6 6 7).2.2.winner = gC2.winner ∧
     ((gC2.finished = true ∨ can_play gC2 7 = false ∨
       inside gC2.size (6 - 1) (6 - 1) = false ∨
       ¬gC2.board (6 - 1) (6 - 1) = EMPTY) →
       (place gC2 6 6 7).2.2 = gC2) ∧
     ((gC2.finished = false ∧ can_play gC2 7 = true ∧
       inside gC2.size (6 - 1) (6 - 1) = true ∧
       gC2.board (6 - 1) (6 - 1) = EMPTY) →
       ((place gC2 6 6 7).2.1 = msg_overline ∨
         (place gC2 6 6 7).2.1 = msg_44 ∨
         (place gC2 6 6 7).2.1 = msg_33) ∧
       (place gC2 6 6 7).2.2.last_move = none)) :=
  ⟨by decide, C2_place_failure_restores gC2 6 6 7 (by decide)⟩

/-- C3: for every successful placement by the restricted side (X) via
`place`, the game finishes with winner X iff one of the four axis
directions through the placed stone carries a run of exactly 5 on the
post-placement board; moreover no direction carries a run of 6 or more
(such a placement would have been rejected as an overline, so it can
never win through the exact-five path). -/
theorem C3_black_win_iff_exact_five (g : GomokuGame) (x1 y1 : Int) (uid : Nat)
    (ht : g.turn = X) (hok : (place g x1 y1 uid).1 = true) :
    (((place g x1 y1 uid).2.2.finished = true ∧
        (place g x1 y1 uid).2.2.winner = some X) ↔
      ∃ d ∈ dirs, max_run_in_dir g.size (setC g.board (x1 - 1) (y1 - 1) X)
        (x1 - 1) (y1 - 1) d.1 d.2 X = 5) ∧
    (∀ d ∈ dirs, max_run_in_dir g.size (setC g.board (x1 - 1) (y1 - 1) X)
        (x1 - 1) (y1 - 1) d.1 d.2 X < 6) := by
  rw [place_unfold] at hok ⊢
  by_cases hf : g.finished = true
  · rw [if_pos hf] at hok; simp at hok
  · rw [if_neg hf] at hok ⊢
    by_cases hcp : (!can_play g uid) = true
    · rw [if_pos hcp] at hok; simp at hok
    · rw [if_neg hcp] at hok ⊢
      by_cases hin : (!inside g.size (x1 - 1) (y1 - 1)) = true
      · rw [if_pos hin] at hok; simp at hok
      · rw [if_neg hin] at hok ⊢
        by_cases hocc : (!(g.board (x1 - 1) (y1 - 1) == EMPTY)) = true
        · rw [if_pos hocc] at hok; simp at hok
        · rw [if_neg hocc] at hok ⊢
          rw [place_with_rules_eq] at hok ⊢
          rw [ht] at hok ⊢
          rw [show (X == O) = false from rfl] at hok ⊢
          simp only [Bool.false_eq_true, if_false] at hok ⊢
          by_cases hov : creates_overline g.size
              (setC g.board (x1 - 1) (y1 - 1) X) (x1 - 1) (y1 - 1) X = true
          · rw [if_pos hov] at hok; simp at hok
          · rw [if_neg hov] at hok ⊢
            have hov' : creates_overline g.size
                (setC g.board (x1 - 1) (y1 - 1) X) (x1 - 1) (y1 - 1) X = false := by
              simpa using hov
            refine ⟨?_, (creates_overline_false_iff _ _ _ _ _).mp hov'⟩
            by_cases h5 : is_exact_five_from g.size
                (setC g.board (x1 - 1) (y1 - 1) X) (x1 - 1) (y1 - 1) X = true
            · rw [if_pos h5]
              have hex := (is_exact_five_iff _ _ _ _ _).mp h5
              simp [hex]
            · rw [if_neg h5] at hok ⊢
              have h5' := (is_exact_five_false_iff _ _ _ _ _).mp (by simpa using h5)
              by_cases h44 : is_forbidden_44 g.size
                  (setC g.board (x1 - 1) (y1 - 1) X) (x1 - 1) (y1 - 1) = true
              · rw [if_pos h44] at hok; simp at hok
              · rw [if_neg h44] at hok ⊢
                by_cases h33 : is_forbidden_33 g.size
                    (setC g.board (x1 - 1) (y1 - 1) X) (x1 - 1) (y1 - 1) = true
                · rw [if_pos h33] at hok; simp at hok
                · rw [if_neg h33] at hok ⊢
                  by_cases hd : is_draw g.size
                      (setC g.board (x1 - 1) (y1 - 1) X) = true
                  · rw [if_pos hd]
                    constructor
                    · rintro ⟨_, hw⟩; simp at hw
                    · rintro ⟨d, hd', h5d⟩; exact absurd h5d (h5' d hd')
                  · rw [if_neg hd]
                    constructor
                    · rintro ⟨hfin, _⟩
                      exact absurd hfin (by simpa using hf)
                    · rintro ⟨d, hd', h5d⟩; exact absurd h5d (h5' d hd')

/-- C3 witness: Black completes an exact five on `gW3` at `(4, 0)`. -/
theorem C3_black_win_iff_exact_five_witness :
    gW3.turn = X ∧ (place gW3 5 1 7).1 = true ∧
    ((((place gW3 5 1 7).2.2.finished = true ∧
        (place gW3 5 1 7).2.2.winner = some X) ↔
      ∃ d ∈ dirs, max_run_in_dir gW3.size (setC gW3.board (5 - 1) (1 - 1) X)
        (5 - 1) (1 - 1) d.1 d.2 X = 5) ∧
     (∀ d ∈ dirs, max_run_in_dir gW3.size (setC gW3.board (5 - 1) (1 - 1) X)
        (5 - 1) (1 - 1) d.1 d.2 X < 6)) :=
  ⟨rfl, by decide, C3_black_win_iff_exact_five gW3 5 1 7 rfl (by decide)⟩

/-- C4: for every successful placement by the unrestricted side (O) via
`place`, the game finishes with winner O iff one of the four axis
directions through the placed stone carries a run of 5 or more on the
post-placement board (runs of 6+ included — no overline restriction
for this side). -/
theorem C4_white_win_iff_five_or_more (g : GomokuGame) (x1 y1 : Int) (uid : Nat)
    (ht : g.turn = O) (hok : (place g x1 y1 uid).1 = true) :
    ((place g x1 y1 uid).2.2.finished = true ∧
        (place g x1 y1 uid).2.2.winner = some O) ↔
      ∃ d ∈ dirs, 5 ≤ max_run_in_dir g.size (setC g.board (x1 - 1) (y1 - 1) O)
        (x1 - 1) (y1 - 1) d.1 d.2 O := by
  rw [place_unfold] at hok ⊢
  by_cases hf : g.finished = true
  · rw [if_pos hf] at hok; simp at hok
  · rw [if_neg hf] at hok ⊢
    by_cases hcp : (!can_play g uid) = true
    · rw [if_pos hcp] at hok; simp at hok
    · rw [if_neg hcp] at hok ⊢
      by_cases hin : (!inside g.size (x1 - 1) (y1 - 1)) = true
      · rw [if_pos hin] at hok; simp at hok
      · rw [if_neg hin] at hok ⊢
        by_cases hocc : (!(g.board (x1 - 1) (y1 - 1) == EMPTY)) = true
        · rw [if_pos hocc] at hok; simp at hok
        · rw [if_neg hocc] at hok ⊢
          rw [place_with_rules_eq] at hok ⊢
          rw [ht] at hok ⊢
          rw [if_pos (show (O == O) = true from rfl)] at hok ⊢
          by_cases h5 : is_five_or_more_from g.size
              (setC g.board (x1 - 1) (y1 - 1) O) (x1 - 1) (y1 - 1) O = true
          · rw [if_pos h5]
            have hex := (is_five_or_more_iff _ _ _ _ _).mp h5
            simp [hex]
          · rw [if_neg h5] at hok ⊢
            have h5' := (is_five_or_more_false_iff _ _ _ _ _).mp (by simpa using h5)
            by_cases hd : is_draw g.size (setC g.board (x1 - 1) (y1 - 1) O) = true
            · rw [if_pos hd]
              constructor
              · rintro ⟨_, hw⟩; simp at hw
              · rintro ⟨d, hd', h5d⟩
                have := h5' d hd'
                omega
            · rw [if_neg hd]
              constructor
              · rintro ⟨hfin, _⟩
                exact absurd hfin (by simpa using hf)
              · rintro ⟨d, hd', h5d⟩
                have := h5' d hd'
                omega

/-- C4 witness: White completes a run of six on `gW4` at `(4, 0)` and
wins (no overline restriction). -/
theorem C4_white_win_iff_five_or_more_witness :
    gW4.turn = O ∧ (place gW4 5 1 8).1 = true ∧
    (((place gW4 5 1 8).2.2.finished = true ∧
       (place gW4 5 1 8).2.2.winner = some O) ↔
      ∃ d ∈ dirs, 5 ≤ max_run_in_dir gW4.size (setC gW4.board (5 - 1) (1 - 1) O)
        (5 - 1) (1 - 1) d.1 d.2 O) :=
  ⟨rfl, by decide, C4_white_win_iff_five_or_more gW4 5 1 8 rfl (by decide)⟩

/-- C5 (amended): for a placement by the restricted side (X) on an
empty in-range cell of an unfinished game: if the placement creates
open threes in two or more directions (the source's double-three
detector) and does **not** create an overline, complete a winning
exact five, or form a double-four — the latter two are checked first
and take precedence — then `place` fails with the double-three reason;
and if the same placement completes a winning exact five without an
overline then `place` succeeds and the game finishes with winner X,
regardless of any double-three. -/
theorem C5_double_three_behaviour (g : GomokuGame) (x1 y1 : Int) (uid : Nat)
    (ht : g.turn = X) (hf : g.finished = false)
    (hcp : can_play g uid = true)
    (hin : inside g.size (x1 - 1) (y1 - 1) = true)
    (hemp : g.board (x1 - 1) (y1 - 1) = EMPTY) :
    (is_forbidden_33 g.size (setC g.board (x1 - 1) (y1 - 1) X)
        (x1 - 1) (y1 - 1) = true →
     creates_overline g.size (setC g.board (x1 - 1) (y1 - 1) X)
        (x1 - 1) (y1 - 1) X = false →
     is_exact_five_from g.size (setC g.board (x1 - 1) (y1 - 1) X)
        (x1 - 1) (y1 - 1) X = false →
     is_forbidden_44 g.size (setC g.board (x1 - 1) (y1 - 1) X)
        (x1 - 1) (y1 - 1) = false →
     (place g x1 y1 uid).1 = false ∧ (place g x1 y1 uid).2.1 = msg_33) ∧
    (creates_overline g.size (setC g.board (x1 - 1) (y1 - 1) X)
        (x1 - 1) (y1 - 1) X = false →
     is_exact_five_from g.size (setC g.board (x1 - 1) (y1 - 1) X)
        (x1 - 1) (y1 - 1) X = true →
     (place g x1 y1 uid).1 = true ∧ (place g x1 y1 uid).2.2.finished = true ∧
       (place g x1 y1 uid).2.2.winner = some X) := by
  rw [place_unfold]
  rw [if_neg (by simp [hf]), if_neg (by simp [hcp]), if_neg (by simp [hin]),
      if_neg (by simp [hemp])]
  rw [place_with_rules_eq]
  rw [ht]
  rw [show (X == O) = false from rfl]
  simp only [Bool.false_eq_true, if_false]
  constructor
  · intro h33 hov h5 h44
    rw [if_neg (by simp [hov]), if_neg (by simp [h5]), if_neg (by simp [h44]),
        if_pos h33]
    exact ⟨rfl, rfl⟩
  · intro hov h5
    rw [if_neg (by simp [hov]), if_pos h5]
    exact ⟨rfl, rfl, rfl⟩

/-- C5 counterexample: on `gC5x`, placing X at `(5, 5)` creates open
threes in two directions and completes no exact five, so the claim
demands a double-three failure; but the placement also creates an
overline, which is checked first, so `place` fails with the overline
reason instead of the double-three reason. -/
theorem C5_counterexample :
    is_forbidden_33 gC5x.size (setC gC5x.board 5 5 X) 5 5 = true ∧
    is_exact_five_from gC5x.size (setC gC5x.board 5 5 X) 5 5 X = false ∧
    (place gC5x 6 6 7).1 = false ∧
    ¬((place gC5x 6 6 7).2.1 = msg_33) := by
  refine ⟨by decide, by decide, by decide, by decide⟩

/-- C5 witness: the double-three rejection on `gC5` and the
win-over-double-three success on `gC1`. -/
theorem C5_double_three_behaviour_witness :
    ((place gC5 6 6 7).1 = false ∧ (place gC5 6 6 7).2.1 = msg_33) ∧
    ((place gC1 6 6 7).1 = true ∧ (place gC1 6 6 7).2.2.finished = true ∧
      (place gC1 6 6 7).2.2.winner = some X) :=
  ⟨(C5_double_three_behaviour gC5 6 6 7 rfl rfl (by decide) (by decide)
      (by decide)).1 (by decide) (by decide) (by decide) (by decide),
   (C5_double_three_behaviour gC1 6 6 7 rfl rfl (by decide) (by decide)
      (by decide)).2 (by decide) (by decide)⟩

/-- C9: on an entirely empty board the candidate generator returns
exactly the single centre cell `(n / 2, n / 2)` (0-indexed), for every
side, radius, limit and forced set. -/
theorem mem_allCells (n : Nat) (c : Int × Int) (hc : c ∈ allCells n) :
    ∃ i, i < n ∧ ∃ j, j < n ∧ c = ((i : Int), (j : Int)) := by
  unfold allCells at hc
  rw [List.mem_flatMap] at hc
  obtain ⟨y, hy, hc2⟩ := hc
  rw [List.mem_map] at hc2
  obtain ⟨x, hx, hxy⟩ := hc2
  rw [List.mem_range] at hy
  rw [List.mem_range] at hx
  exact ⟨x, hx, y, hy, hxy.symm⟩

/-- C9: on an entirely empty board the candidate generator returns
exactly the single centre cell `(n / 2, n / 2)` (0-indexed), for every
side, radius, limit and forced set. -/
theorem C9_candidates_empty_board (n : Nat) (b : Board)
    (radius limit who : Nat) (forced : List (Int × Int))
    (hemp : ∀ i, i < n → ∀ j, j < n → b (i : Int) (j : Int) = EMPTY) :
    candidate_moves_near n b radius limit who forced =
      [(((n / 2 : Nat) : Int), ((n / 2 : Nat) : Int))] := by
  unfold candidate_moves_near
  have hstones : (allCells n).filter (fun c => !(b c.1 c.2 == EMPTY)) = [] := by
    rw [List.filter_eq_nil_iff]
    intro c hc
    obtain ⟨i, hi, j, hj, rfl⟩ := mem_allCells n c hc
    simp [hemp i hi j hj]
  rw [hstones]

/-- C9 witness: the 9×9 empty board yields exactly `[(4, 4)]`. -/
theorem C9_candidates_empty_board_witness :
    (∀ i, i < 9 → ∀ j, j < 9 → empty_board (i : Int) (j : Int) = EMPTY) ∧
    candidate_moves_near 9 empty_board 3 18 1 [] = [(4, 4)] :=
  ⟨fun _ _ _ _ => rfl,
   C9_candidates_empty_board 9 empty_board 3 18 1 [] (fun _ _ _ _ => rfl)⟩

/-- The scan predicate of `_find_immediate_win`, in propositional form:
the cell is empty, legal for X when the mover is X, and immediately
winning. -/
theorem immediate_win_pred_iff (n : Nat) (b : Board) (who : Nat) (c : Int × Int) :
    ((b c.1 c.2 == EMPTY) && !(who == X && !is_legal_moveB n b c.1 c.2 X)
      && is_win_if_put n b c.1 c.2 who) = true ↔
    (b c.1 c.2 = EMPTY ∧ (who = X → is_legal_moveB n b c.1 c.2 X = true) ∧
      is_win_if_put n b c.1 c.2 who = true) := by
  constructor
  · intro h
    simp only [Bool.and_eq_true, Bool.not_eq_true', Bool.and_eq_false_iff,
      beq_iff_eq, beq_eq_false_iff_ne, ne_eq, Bool.not_eq_false'] at h
    refine ⟨h.1.1, ?_, h.2⟩
    intro hx
    rcases h.1.2 with h' | h'
    · exact absurd hx h'
    · exact h'
  · intro h
    simp only [Bool.and_eq_true, Bool.not_eq_true', Bool.and_eq_false_iff,
      beq_iff_eq, beq_eq_false_iff_ne, ne_eq, Bool.not_eq_false']
    refine ⟨⟨h.1, ?_⟩, h.2.2⟩
    by_cases hx : who = X
    · exact Or.inr (h.2.1 hx)
    · exact Or.inl hx

/-- When some immediately winning cell exists, `_find_immediate_win`
returns one (the first in scan order), and the returned cell satisfies
the scan predicate. -/
theorem find_immediate_win_spec (n : Nat) (b : Board) (who : Nat)
    (hex : ∃ c ∈ allCells n, b c.1 c.2 = EMPTY ∧
      (who = X → is_legal_moveB n b c.1 c.2 X = true) ∧
      is_win_if_put n b c.1 c.2 who = true) :
    ∃ m, find_immediate_win n b who = some m ∧ m ∈ allCells n ∧
      b m.1 m.2 = EMPTY ∧
      (who = X → is_legal_moveB n b m.1 m.2 X = true) ∧
      is_win_if_put n b m.1 m.2 who = true := by
  obtain ⟨c, hc, hp⟩ := hex
  cases hfind : find_immediate_win n b who with
  | none =>
    exfalso
    unfold find_immediate_win at hfind
    have hnone := List.find?_eq_none.mp hfind c hc
    exact hnone ((immediate_win_pred_iff n b who c).mpr hp)
  | some m =>
    have hfind' : (allCells n).find? (fun c =>
        (b c.1 c.2 == EMPTY) && !(who == X && !is_legal_moveB n b c.1 c.2 X)
          && is_win_if_put n b c.1 c.2 who) = some m := hfind
    have hpm := List.find?_some hfind'
    have hmm := List.mem_of_find?_eq_some hfind'
    exact ⟨m, rfl, hmm, (immediate_win_pred_iff n b who m).mp hpm⟩

/-- C7: at the hard tier, whenever it is the AI's turn and some legal
empty cell immediately wins for the side to move (exact five without
overline for X, five-or-more for O, as computed by `_is_win_if_put`),
`_ai_move_hard` returns such a cell for **every** depth, radius and
candidate limit, and `ai_move` returns it. -/
theorem C7_hard_ai_immediate_win (g : GomokuGame) (rnd : Nat)
    (hlvl : g.ai_level = some "hard") (hai : is_ai_turn g = true)
    (hex : ∃ c ∈ allCells g.size, g.board c.1 c.2 = EMPTY ∧
      (g.turn = X → is_legal_moveB g.size g.board c.1 c.2 X = true) ∧
      is_win_if_put g.size g.board c.1 c.2 g.turn = true) :
    (∀ depth radius limit,
      (ai_move_hard g g.turn depth radius limit rnd) ∈ allCells g.size ∧
      g.board (ai_move_hard g g.turn depth radius limit rnd).1
        (ai_move_hard g g.turn depth radius limit rnd).2 = EMPTY ∧
      (g.turn = X → is_legal_moveB g.size g.board
        (ai_move_hard g g.turn depth radius limit rnd).1
        (ai_move_hard g g.turn depth radius limit rnd).2 X = true) ∧
      is_win_if_put g.size g.board
        (ai_move_hard g g.turn depth radius limit rnd).1
        (ai_move_hard g g.turn depth radius limit rnd).2 g.turn = true) ∧
    (∃ m, ai_move g rnd = Except.ok m ∧ m ∈ allCells g.size ∧
      g.board m.1 m.2 = EMPTY ∧
      (g.turn = X → is_legal_moveB g.size g.board m.1 m.2 X = true) ∧
      is_win_if_put g.size g.board m.1 m.2 g.turn = true) := by
  obtain ⟨m, hfind, hmem, hprop⟩ := find_immediate_win_spec g.size g.board g.turn hex
  have hhard : ∀ depth radius limit,
      ai_move_hard g g.turn depth radius limit rnd = m := by
    intro depth radius limit
    simp only [ai_move_hard]
    rw [hfind]
  constructor
  · intro depth radius limit
    rw [hhard depth radius limit]
    exact ⟨hmem, hprop⟩
  · refine ⟨m, ?_, hmem, hprop⟩
    have hlvls : ai_level_string g = "hard" := by
      unfold ai_level_string
      rw [hlvl]
      decide
    unfold ai_move
    rw [if_neg (by simp [hai]),
        if_pos (show (ai_level_string g == "hard") = true by rw [hlvls]; decide)]
    rw [hhard 2 2 40]

/-- C7 witness: on `gW7` (hard tier, White AI to move, immediate win at
`(4, 0)`) the AI plays an immediately winning cell. -/
theorem C7_hard_ai_immediate_win_witness :
    gW7.ai_level = some "hard" ∧ is_ai_turn gW7 = true ∧
    (∃ m, ai_move gW7 0 = Except.ok m ∧ m ∈ allCells gW7.size ∧
      gW7.board m.1 m.2 = EMPTY ∧
      (gW7.turn = X → is_legal_moveB gW7.size gW7.board m.1 m.2 X = true) ∧
      is_win_if_put gW7.size gW7.board m.1 m.2 gW7.turn = true) :=
  ⟨rfl, by decide, (C7_hard_ai_immediate_win gW7 0 rfl (by decide) (by decide)).2⟩

/-- C8: `ai_move` fails (the embedded `RuntimeError`) exactly when the
game is finished or the side to move has a non-`None` player id (i.e.
it is not the AI's turn); when it is the AI's turn it returns a
coordinate without failing.  The fault is an `Except.error`, distinct
from the structured `(ok, message)` results of `place`. -/
theorem C8_ai_move_error_iff (g : GomokuGame) (rnd : Nat) :
    ((∃ e, ai_move g rnd = Except.error e) ↔
      (g.finished = true ∨ (current_player_id g).isSome = true)) ∧
    (g.finished = false → current_player_id g = none →
      ∃ m, ai_move g rnd = Except.ok m) := by
  have hiff : is_ai_turn g = false ↔
      (g.finished = true ∨ (current_player_id g).isSome = true) := by
    unfold is_ai_turn
    by_cases hf : g.finished = true
    · simp [hf]
    · cases hpid : current_player_id g <;> simp [hf, hpid]
  by_cases hai : is_ai_turn g = true
  · have hnot : ¬(g.finished = true ∨ (current_player_id g).isSome = true) := by
      rw [← hiff]
      simp [hai]
    constructor
    · constructor
      · rintro ⟨e, he⟩
        unfold ai_move at he
        rw [if_neg (by simp [hai])] at he
        split at he
        · cases he
        · split at he
          · cases he
          · cases he
      · intro hcon
        exact absurd hcon hnot
    · intro _ _
      unfold ai_move
      rw [if_neg (by simp [hai])]
      split
      · exact ⟨_, rfl⟩
      · split
        · exact ⟨_, rfl⟩
        · exact ⟨_, rfl⟩
  · have hf : is_ai_turn g = false := by simpa using hai
    have hcon := hiff.mp hf
    constructor
    · constructor
      · intro _
        exact hcon
      · intro _
        refine ⟨ai_wrong_turn_msg, ?_⟩
        unfold ai_move
        rw [if_pos (by simp [hf])]
    · intro h1 h2
      exfalso
      unfold is_ai_turn at hf
      rw [h1, h2] at hf
      simp at hf

/-- C8 witness: the failure on the finished game `gW8f` and the
successful coordinate on the AI-turn game `gW8a`. -/
theorem C8_ai_move_error_iff_witness :
    ((∃ e, ai_move gW8f 0 = Except.error e) ↔
      (gW8f.finished = true ∨ (current_player_id gW8f).isSome = true)) ∧
    (∃ m, ai_move gW8a 0 = Except.ok m) :=
  ⟨(C8_ai_move_error_iff gW8f 0).1,
   (C8_ai_move_error_iff gW8a 0).2 (by decide) (by decide)⟩

end Gomoku
